import Mathlib

/-!
Shallow embedding of `src/posixtimer.py` (the `python_posixtimer` repository),
used to check the natural-language specification against the code.

Modelling conventions:

- Python floats are modelled as exact rationals (`ℚ`).  Every concrete float
  appearing in a counterexample below (such as `-1.5`, `-1.0`, `-0.5`,
  `-500000000.0`) is exactly representable as an IEEE-754 binary64 value, and
  all the arithmetic steps on those concrete values are exact in binary64 as
  well, so those evaluations agree with the real Python semantics.
- The libc/kernel POSIX timer facility is an external collaborator (spec
  section 6 gives its behavioural contract).  It is modelled as a finite table
  from nonzero handles to the armed `itimerspec` of each live timer, plus a
  fresh-handle counter.  The model is timeless: no real time elapses, so the
  stored spec is what `timer_gettime`/`timer_settime` report back.  A call on
  a handle that is not in the table fails with `-1` and `errno = EINVAL`,
  which is the POSIX contract for an invalid timer id.
- Python exceptions are modelled with `Except`/`Option PyError`.  Name
  resolution of a module-level global is modelled by membership in the list of
  names the module imports: `posixtimer.py` imports only `ctypes`, `errno`
  and `sys`, so evaluating the global `os` raises `NameError`.
-/

namespace PosixTimerModel

/-- Embedding of the ctypes struct `_Struct_timespec` (`posixtimer.py`
lines 116-120): a `tv_sec`/`tv_nsec` pair of machine longs, modelled as
unbounded integers. -/
structure Timespec where
  tv_sec : Int
  tv_nsec : Int
deriving DecidableEq

/-- Embedding of the ctypes struct `_Struct_itimerspec` (lines 123-127):
`it_interval` first and `it_value` second, exactly as in the C struct. -/
structure Itimerspec where
  it_interval : Timespec
  it_value : Timespec
deriving DecidableEq

/-- A freshly constructed `_Struct_itimerspec()`: ctypes zero-initializes
every field. -/
def zeroItimerspec : Itimerspec := ⟨⟨0, 0⟩, ⟨0, 0⟩⟩

/-- The Python exceptions the embedded code can raise. -/
inductive PyError where
  | oserror (errnum : Int)
  | nameError (missing : String)
  | attributeError (attr : String)
deriving DecidableEq

/-- The module-level imports of `posixtimer.py` (lines 21-23).  The module
imports exactly `ctypes`, `errno` and `sys`; in particular it never imports
`os`, and no module-level assignment defines a global named `os` either. -/
def posixtimer_imports : List String := ["ctypes", "errno", "sys"]

/-- Embedding of `_error_handler` (lines 129-133), installed as the ctypes
`restype` of every native timer call (lines 135-146) so that it receives the
raw integer return value.  On `-1` the code executes
`raise OSError(err, os.strerror(err))`; evaluating the argument expression
`os.strerror(err)` first resolves the global name `os`, which raises
`NameError` when `os` is not among the imports of the module.  `errnum` is
the value `ctypes.get_errno()` reads, supplied by the native-call model. -/
def error_handler (errnum : Int) (value : Int) : Except PyError Int :=
  if value = -1 then
    if "os" ∈ posixtimer_imports then .error (.oserror errnum)
    else .error (.nameError "os")
  else .ok value

/-- Kernel timer table: live handles with their armed specs, plus a counter
from which fresh handles are drawn.  Handles handed out are always nonzero
(the glibc `timer_t` for `SIGEV_THREAD` timers is a non-null pointer). -/
structure NativeState where
  timers : List (Nat × Itimerspec)
  nextHandle : Nat
deriving DecidableEq

/-- First entry of the table with the given handle, if any. -/
def lookupTimers : List (Nat × Itimerspec) → Nat → Option Itimerspec
  | [], _ => none
  | p :: ps, h => if p.1 = h then some p.2 else lookupTimers ps h

/-- Overwrite the spec stored for a handle (no effect on absent handles). -/
def storeTimers : List (Nat × Itimerspec) → Nat → Itimerspec → List (Nat × Itimerspec)
  | [], _, _ => []
  | p :: ps, h, k => (if p.1 = h then (h, k) else p) :: storeTimers ps h k

/-- Drop every entry with the given handle. -/
def removeTimers : List (Nat × Itimerspec) → Nat → List (Nat × Itimerspec)
  | [], _ => []
  | p :: ps, h => if p.1 = h then removeTimers ps h else p :: removeTimers ps h

def NativeState.lookup (st : NativeState) (h : Nat) : Option Itimerspec :=
  lookupTimers st.timers h

def NativeState.store (st : NativeState) (h : Nat) (k : Itimerspec) : NativeState :=
  ⟨storeTimers st.timers h k, st.nextHandle⟩

def NativeState.remove (st : NativeState) (h : Nat) : NativeState :=
  ⟨removeTimers st.timers h, st.nextHandle⟩

/-- The clock ids defined at module level (lines 56-66): `CLOCK_REALTIME` = 0
through `CLOCK_BOOTTIME_ALARM` = 9 and `CLOCK_TAI` = 11. -/
def validClocks : List Int := [0, 1, 2, 3, 4, 5, 6, 7, 8, 9, 11]

/-- The `errno` value for an invalid argument / invalid timer id. -/
def EINVAL : Int := 22

/-- Model of the native `timer_create` call: result is
`(return value, errno, handle written through the out pointer, new state)`.
On success a fresh nonzero handle is allocated, created disarmed (POSIX:
a new timer starts unarmed, here the all-zero spec); on an unsupported clock
it fails with `EINVAL` and writes nothing. -/
def timer_create (st : NativeState) (clockid : Int) : Int × Int × Nat × NativeState :=
  if clockid ∈ validClocks then
    let h := st.nextHandle + 1
    (0, 0, h, ⟨(h, zeroItimerspec) :: st.timers, h⟩)
  else (-1, EINVAL, 0, st)

/-- Model of the native `timer_settime` call: result is
`(return value, errno, old spec written through the out pointer, new state)`.
On a live handle it stores the new spec and reports the spec that was armed
immediately before the call; on a dead handle it fails with `EINVAL`, leaving
the zero-initialized out-buffer untouched.  The `flags` argument
(`TIMER_ABSTIME`) selects absolute versus relative interpretation of the
value by the kernel clock; the timeless model stores the spec verbatim either
way, so `flags` does not change the bookkeeping. -/
def timer_settime (st : NativeState) (h : Nat) (flags : Int) (newSpec : Itimerspec) :
    Int × Int × Itimerspec × NativeState :=
  match st.lookup h with
  | some old => (0, 0, old, st.store h newSpec)
  | none => (-1, EINVAL, zeroItimerspec, st)

/-- Model of the native `timer_gettime` call: `(return value, errno, spec)`.
Timeless model: the spec reported is the armed spec. -/
def timer_gettime (st : NativeState) (h : Nat) : Int × Int × Itimerspec :=
  match st.lookup h with
  | some cur => (0, 0, cur)
  | none => (-1, EINVAL, zeroItimerspec)

/-- Model of the native `timer_getoverrun` call: `(return value, errno)`.
In the timeless model no expiration ever happens, so a live timer reports
zero overruns. -/
def timer_getoverrun (st : NativeState) (h : Nat) : Int × Int :=
  match st.lookup h with
  | some _ => (0, 0)
  | none => (-1, EINVAL)

/-- Model of the native `timer_delete` call: `(return value, errno, state)`. -/
def timer_delete (st : NativeState) (h : Nat) : Int × Int × NativeState :=
  match st.lookup h with
  | some _ => (0, 0, st.remove h)
  | none => (-1, EINVAL, st)

/-- Embedding of the Python builtin `int()` applied to a float: truncation
toward zero. -/
def pyInt (x : ℚ) : Int := if 0 ≤ x then ⌊x⌋ else ⌈x⌉

/-- Embedding of `_second_nsec_to_float` (lines 148-149):
`sec_nsec[0] + sec_nsec[1]*1e-9`. -/
def second_nsec_to_float (sec_nsec : Int × Int) : ℚ :=
  (sec_nsec.1 : ℚ) + (sec_nsec.2 : ℚ) * (1 / 10 ^ 9)

/-- Embedding of `_float_to_second_nsec` (lines 151-153):
`sec = int(value); return (sec, int((value - sec)*1e9))`. -/
def float_to_second_nsec (value : ℚ) : Int × Int :=
  let sec := pyInt value
  (sec, pyInt ((value - (sec : ℚ)) * 10 ^ 9))

/-- The per-instance state of a `PosixTimer`: the value of `self.timerid`.
`none` models the attribute never having been assigned at all, `some 0`
models `ctypes.c_void_p(0)` (the null handle assigned at line 160 before
`timer_create` runs, left in place when creation fails), and `some h` with
`h ≠ 0` a handle written by a successful `timer_create`. -/
structure PosixTimer where
  timerid : Option Nat
deriving DecidableEq

/-- Embedding of `PosixTimer.__init__` (lines 158-167).  The result is the
object as constructed (complete or partial), the exception the constructor
raised if any, and the resulting native state.  Line 160 first stores the
null handle; `timer_create` then writes a real handle through
`ctypes.byref(self.timerid)` on success and leaves it untouched on failure,
in which case `_error_handler` raises out of the constructor. -/
def PosixTimer.init (st : NativeState) (clockid : Int) :
    PosixTimer × Option PyError × NativeState :=
  let r := timer_create st clockid
  match error_handler r.2.1 r.1 with
  | .error e => (⟨some 0⟩, some e, r.2.2.2)
  | .ok _ => (⟨some r.2.2.1⟩, none, r.2.2.2)

/-- Embedding of `PosixTimer.__del__` (lines 169-172):
`timerid = getattr(self, "timerid", ctypes.c_void_p(0))` followed by
`if timerid: _librt.timer_delete(timerid)`.  The result records whether the
native `timer_delete` call was made, the exception the body raised if any,
and the resulting native state.  Note the method does not clear
`self.timerid`. -/
def PosixTimer.del (t : PosixTimer) (st : NativeState) :
    Bool × Option PyError × NativeState :=
  let tid : Nat := (t.timerid).getD 0
  if tid = 0 then (false, none, st)
  else
    let r := timer_delete st tid
    match error_handler r.2.1 r.1 with
    | .error e => (true, some e, r.2.2)
    | .ok _ => (true, none, r.2.2)

/-- Embedding of `PosixTimer.set_precise` (lines 174-184): builds the
`itimerspec` from the two `(sec, nsec)` pairs, calls `timer_settime`, and
returns the previous `((value sec, value nsec), (interval sec, interval
nsec))` read back from the out-buffer.  Reading `self.timerid` when the
attribute was never assigned raises `AttributeError`. -/
def PosixTimer.set_precise (t : PosixTimer) (st : NativeState)
    (value_sec_nsec interval_sec_nsec : Int × Int) (flags : Int) :
    Except PyError (((Int × Int) × (Int × Int)) × NativeState) :=
  match t.timerid with
  | none => .error (.attributeError "timerid")
  | some h =>
    let setval : Itimerspec :=
      ⟨⟨interval_sec_nsec.1, interval_sec_nsec.2⟩,
       ⟨value_sec_nsec.1, value_sec_nsec.2⟩⟩
    let r := timer_settime st h flags setval
    match error_handler r.2.1 r.1 with
    | .error e => .error e
    | .ok _ =>
      .ok (((r.2.2.1.it_value.tv_sec, r.2.2.1.it_value.tv_nsec),
            (r.2.2.1.it_interval.tv_sec, r.2.2.1.it_interval.tv_nsec)), r.2.2.2)

/-- Embedding of `PosixTimer.set` (lines 186-188): converts both float
arguments with `_float_to_second_nsec`, delegates to `set_precise`, and
converts both components of the result back with `_second_nsec_to_float`.
The Python default arguments `interval = 0` and `flags = 0` are passed
explicitly by the callers in this model. -/
def PosixTimer.set (t : PosixTimer) (st : NativeState) (value interval : ℚ)
    (flags : Int) : Except PyError ((ℚ × ℚ) × NativeState) :=
  match t.set_precise st (float_to_second_nsec value) (float_to_second_nsec interval)
      flags with
  | .error e => .error e
  | .ok (rv, st1) =>
    .ok ((second_nsec_to_float rv.1, second_nsec_to_float rv.2), st1)

/-- Embedding of `PosixTimer.get_precise` (lines 190-193). -/
def PosixTimer.get_precise (t : PosixTimer) (st : NativeState) :
    Except PyError ((Int × Int) × (Int × Int)) :=
  match t.timerid with
  | none => .error (.attributeError "timerid")
  | some h =>
    let r := timer_gettime st h
    match error_handler r.2.1 r.1 with
    | .error e => .error e
    | .ok _ =>
      .ok ((r.2.2.it_value.tv_sec, r.2.2.it_value.tv_nsec),
           (r.2.2.it_interval.tv_sec, r.2.2.it_interval.tv_nsec))

/-- Embedding of `PosixTimer.get` (lines 195-197). -/
def PosixTimer.get (t : PosixTimer) (st : NativeState) : Except PyError (ℚ × ℚ) :=
  match t.get_precise st with
  | .error e => .error e
  | .ok rv => .ok (second_nsec_to_float rv.1, second_nsec_to_float rv.2)

/-- Embedding of `PosixTimer.getoverrun` (lines 199-200). -/
def PosixTimer.getoverrun (t : PosixTimer) (st : NativeState) : Except PyError Int :=
  match t.timerid with
  | none => .error (.attributeError "timerid")
  | some h =>
    let r := timer_getoverrun st h
    error_handler r.2 r.1

/-- Embedding of `PosixTimer.disarm_precise` (lines 202-203):
`self.set_precise((0,0))`, with the default arguments
`interval_sec_nsec = (0,0)` and `flags = 0` made explicit. -/
def PosixTimer.disarm_precise (t : PosixTimer) (st : NativeState) :
    Except PyError (((Int × Int) × (Int × Int)) × NativeState) :=
  t.set_precise st (0, 0) (0, 0) 0

/-- Embedding of `PosixTimer.disarm` (lines 205-206): `self.set(0)`, with the
default arguments `interval = 0` and `flags = 0` made explicit. -/
def PosixTimer.disarm (t : PosixTimer) (st : NativeState) :
    Except PyError ((ℚ × ℚ) × NativeState) :=
  t.set st 0 0 0

/-- Outcome of one kernel-thread notification delivery. -/
inductive DispatchResult where
  | invoked (target : Nat)
  | undefinedBehavior
  | noOp
deriving DecidableEq

/-- Embedding of `PosixTimer.callback_obj` (line 156), the `SIGEV_THREAD`
notification function: `ctypes.cast(sigval_value.sival_ptr,
ctypes.py_object).value.callback()`.  The code casts the raw pointer back to
a Python object and invokes `.callback()` unconditionally; there is no token
table, no liveness test and no disposal flag anywhere in the dispatch path.
`live` is the set of addresses of currently live Python objects; the branch
below encodes the semantics of the unconditional cast (a cast of a live
address dispatches into that object, a cast of a dangling address
dereferences freed memory, which is undefined behavior), not a check
performed by the code. -/
def callback_obj (live : List Nat) (sival_ptr : Nat) : DispatchResult :=
  if sival_ptr ∈ live then .invoked sival_ptr else .undefinedBehavior

end PosixTimerModel

deriving instance DecidableEq for Except

namespace PosixTimerModel

/-- Looking up a handle that is present still succeeds after a store, and
yields the stored spec. -/
theorem lookupTimers_store_self (l : List (Nat × Itimerspec)) (h : Nat)
    (k k0 : Itimerspec) (hl : lookupTimers l h = some k0) :
    lookupTimers (storeTimers l h k) h = some k := by
  induction l with
  | nil => simp [lookupTimers] at hl
  | cons p ps ih =>
    by_cases hp : p.1 = h
    · simp [storeTimers, lookupTimers, hp]
    · simp only [storeTimers, lookupTimers, hp, if_false, if_neg hp] at hl ⊢
      exact ih hl

/-- Storing twice at the same handle is the same as storing the second value
once. -/
theorem storeTimers_storeTimers (l : List (Nat × Itimerspec)) (h : Nat)
    (k k' : Itimerspec) :
    storeTimers (storeTimers l h k) h k' = storeTimers l h k' := by
  induction l with
  | nil => rfl
  | cons p ps ih =>
    by_cases hp : p.1 = h <;> simp [storeTimers, hp, ih]

/-- After removing a handle, looking it up fails. -/
theorem lookupTimers_remove_self (l : List (Nat × Itimerspec)) (h : Nat) :
    lookupTimers (removeTimers l h) h = none := by
  induction l with
  | nil => rfl
  | cons p ps ih =>
    by_cases hp : p.1 = h <;> simp [removeTimers, lookupTimers, hp, ih]

theorem NativeState.lookup_store_self (st : NativeState) (h : Nat)
    (k k0 : Itimerspec) (hl : st.lookup h = some k0) :
    (st.store h k).lookup h = some k :=
  lookupTimers_store_self st.timers h k k0 hl

theorem NativeState.store_store (st : NativeState) (h : Nat) (k k' : Itimerspec) :
    (st.store h k).store h k' = st.store h k' := by
  simp [NativeState.store, storeTimers_storeTimers]

theorem NativeState.lookup_remove_self (st : NativeState) (h : Nat) :
    (st.remove h).lookup h = none :=
  lookupTimers_remove_self st.timers h

/-- Shared evaluation fact: a failing native call makes `_error_handler`
raise `NameError` for the unbound global `os`. -/
theorem error_handler_neg_one (errnum : Int) :
    error_handler errnum (-1) = .error (.nameError "os") := by
  unfold error_handler
  rw [if_pos rfl, if_neg (by decide)]

/-- Shared evaluation fact: `_float_to_second_nsec(0.0) = (0, 0)`. -/
theorem float_to_second_nsec_zero : float_to_second_nsec 0 = (0, 0) := by
  norm_num [float_to_second_nsec, pyInt]

end PosixTimerModel

namespace PosixTimerModel

/-- C1 counterexample: the claim states that a notification whose token does
not resolve to a live object results in no callback dispatch and a normal
return.  On the code this fails: with no live object at address 1, the
notification function still performs the unconditional cast, which is
undefined behavior rather than a no-op return. -/
theorem notification_after_destroy_not_noop :
    (1 : Nat) ∉ ([] : List Nat) ∧ callback_obj [] 1 ≠ DispatchResult.noOp := by
  exact ⟨by decide, by decide⟩

/-- C1 (amended): the notification function dispatches unconditionally.  A
pointer to a live object invokes the callback of exactly that object; a
pointer whose object has been destroyed is cast and dereferenced anyway,
which is undefined behavior, not a no-op return — the dispatch path contains
no unknown-token or disposal check at all. -/
theorem callback_obj_unconditional_dispatch (live : List Nat) (ptr : Nat)
    (hdead : ptr ∉ live) :
    callback_obj live ptr = DispatchResult.undefinedBehavior ∧
    ∀ q, q ∈ live → callback_obj live q = DispatchResult.invoked q := by
  constructor
  · simp [callback_obj, hdead]
  · intro q hq
    simp [callback_obj, hq]

/-- C1 witness: the amended theorem evaluated with live object 7 and a
notification for the destroyed address 3. -/
theorem callback_obj_unconditional_dispatch_witness :
    callback_obj [7] 3 = DispatchResult.undefinedBehavior ∧
    ∀ q, q ∈ [7] → callback_obj [7] q = DispatchResult.invoked q :=
  callback_obj_unconditional_dispatch [7] 3 (by decide)

/-- C2: the claim states that a native call returning `-1` makes the timer
operation raise a typed error carrying the platform error code.  In the code
this is broken: `posixtimer.py` never imports `os`, so line 132 of
`_error_handler` raises `NameError` for the unbound global `os` instead of
the intended `OSError(err, ...)`.  The conjuncts evaluate the bug: the
module imports lack `os`; every `-1` return raises the `NameError`; and each
public operation hit by a failing native call (`timer_settime`,
`timer_gettime`, `timer_getoverrun` on a dead handle, `timer_create` on the
unsupported clock id 10) surfaces that `NameError`, not an error carrying
the error code. -/
theorem native_failure_raises_nameError :
    "os" ∉ posixtimer_imports ∧
    (∀ errnum : Int, error_handler errnum (-1) = .error (.nameError "os")) ∧
    (∀ errnum : Int, error_handler errnum (-1) ≠ .error (.oserror errnum)) ∧
    PosixTimer.set_precise ⟨some 5⟩ ⟨[], 0⟩ (1, 0) (0, 0) 0
      = .error (.nameError "os") ∧
    PosixTimer.get_precise ⟨some 5⟩ ⟨[], 0⟩ = .error (.nameError "os") ∧
    PosixTimer.getoverrun ⟨some 5⟩ ⟨[], 0⟩ = .error (.nameError "os") ∧
    (PosixTimer.init ⟨[], 0⟩ 10).2.1 = some (.nameError "os") := by
  refine ⟨by decide, error_handler_neg_one, ?_, by decide, by decide, by decide,
    by decide⟩
  intro errnum
  rw [error_handler_neg_one]
  simp

/-- C3 counterexample: the claim states that disposing a second time is a
no-op rather than an error.  Concrete run refuting it: create a timer on
`CLOCK_MONOTONIC` (clock id 1) in the empty native state; the first
finalization deletes the native timer and returns normally, but the second
finalization of the same object performs the native `timer_delete` call
again (first component `true`: not a no-op) and raises. -/
theorem second_finalize_errors :
    PosixTimer.init ⟨[], 0⟩ 1 = (⟨some 1⟩, none, ⟨[(1, zeroItimerspec)], 1⟩) ∧
    (PosixTimer.mk (some 1)).del ⟨[(1, zeroItimerspec)], 1⟩ = (true, none, ⟨[], 1⟩) ∧
    (PosixTimer.mk (some 1)).del ⟨[], 1⟩
      = (true, some (.nameError "os"), ⟨[], 1⟩) := by
  exact ⟨by decide, by decide, by decide⟩

/-- C3 (amended): disposal of a successfully created timer deletes the native
resource, but `__del__` never clears the stored handle, so invoking it a
second time is not a no-op: it re-issues the native `timer_delete` on the
stale handle, and the resulting `-1` makes the error path raise.  (The
Python runtime itself invokes `__del__` at most once per object, so the
double-dispose path is reachable only by calling `__del__` explicitly.) -/
theorem del_deletes_resource_but_is_not_idempotent (t : PosixTimer)
    (st : NativeState) (h : Nat) (sp : Itimerspec) (ht : t.timerid = some h)
    (hh : h ≠ 0) (hl : st.lookup h = some sp) :
    t.del st = (true, none, st.remove h) ∧
    (st.remove h).lookup h = none ∧
    t.del (st.remove h) = (true, some (.nameError "os"), st.remove h) := by
  refine ⟨?_, NativeState.lookup_remove_self st h, ?_⟩
  · simp [PosixTimer.del, ht, hh, timer_delete, hl, error_handler]
  · have h2 : (st.remove h).lookup h = none := NativeState.lookup_remove_self st h
    simp [PosixTimer.del, ht, hh, timer_delete, h2, error_handler_neg_one]

/-- C3 witness: the amended theorem evaluated on the one-timer state produced
by a successful construction. -/
theorem del_deletes_resource_but_is_not_idempotent_witness :
    (PosixTimer.mk (some 1)).del ⟨[(1, zeroItimerspec)], 1⟩
      = (true, none, NativeState.remove ⟨[(1, zeroItimerspec)], 1⟩ 1) ∧
    (NativeState.remove ⟨[(1, zeroItimerspec)], 1⟩ 1).lookup 1 = none ∧
    (PosixTimer.mk (some 1)).del (NativeState.remove ⟨[(1, zeroItimerspec)], 1⟩ 1)
      = (true, some (.nameError "os"), NativeState.remove ⟨[(1, zeroItimerspec)], 1⟩ 1) :=
  del_deletes_resource_but_is_not_idempotent ⟨some 1⟩ ⟨[(1, zeroItimerspec)], 1⟩ 1
    zeroItimerspec rfl (by decide) rfl

/-- C4: on a live timer, `set_precise` installs the requested spec and
returns `((previous value sec, previous value nsec), (previous interval sec,
previous interval nsec))` — the armed state immediately prior to the call,
as reported back by `timer_settime` through the out-buffer. -/
theorem set_precise_returns_prior_state (t : PosixTimer) (st : NativeState)
    (h : Nat) (sp : Itimerspec) (value interval : Int × Int) (flags : Int)
    (ht : t.timerid = some h) (hl : st.lookup h = some sp) :
    t.set_precise st value interval flags =
      .ok (((sp.it_value.tv_sec, sp.it_value.tv_nsec),
            (sp.it_interval.tv_sec, sp.it_interval.tv_nsec)),
           st.store h ⟨⟨interval.1, interval.2⟩, ⟨value.1, value.2⟩⟩) := by
  simp [PosixTimer.set_precise, ht, timer_settime, hl, error_handler]

/-- C4 witness: a timer armed with value (5,0) and interval (0,0) re-armed
with value (2,3), interval (4,5); the previous state is returned. -/
theorem set_precise_returns_prior_state_witness :
    PosixTimer.set_precise ⟨some 1⟩ ⟨[(1, ⟨⟨0, 0⟩, ⟨5, 0⟩⟩)], 1⟩ (2, 3) (4, 5) 0 =
      .ok (((5, 0), (0, 0)),
           NativeState.store ⟨[(1, ⟨⟨0, 0⟩, ⟨5, 0⟩⟩)], 1⟩ 1 ⟨⟨4, 5⟩, ⟨2, 3⟩⟩) := by
  simpa using set_precise_returns_prior_state ⟨some 1⟩ ⟨[(1, ⟨⟨0, 0⟩, ⟨5, 0⟩⟩)], 1⟩ 1
    ⟨⟨0, 0⟩, ⟨5, 0⟩⟩ (2, 3) (4, 5) 0 rfl rfl

end PosixTimerModel

namespace PosixTimerModel

/-- C5: `disarm()` is definitionally `set(0)` with all-zero interval and
flags, and `disarm_precise()` is `set_precise((0,0))` with zero interval;
both float zeros convert to the `(0, 0)` duration.  On a live timer, disarm
stores the all-zero spec, and a second disarm returns the all-zero previous
state `(0.0, 0.0)` and leaves the native state completely unchanged —
disarm is idempotent. -/
theorem disarm_equiv_set_zero_and_idempotent (t : PosixTimer) (st : NativeState)
    (h : Nat) (sp : Itimerspec) (ht : t.timerid = some h)
    (hl : st.lookup h = some sp) :
    t.disarm st = t.set st 0 0 0 ∧
    t.disarm_precise st = t.set_precise st (0, 0) (0, 0) 0 ∧
    float_to_second_nsec 0 = (0, 0) ∧
    t.disarm st =
      .ok ((second_nsec_to_float (sp.it_value.tv_sec, sp.it_value.tv_nsec),
            second_nsec_to_float (sp.it_interval.tv_sec, sp.it_interval.tv_nsec)),
           st.store h zeroItimerspec) ∧
    (st.store h zeroItimerspec).lookup h = some zeroItimerspec ∧
    t.disarm (st.store h zeroItimerspec) = .ok ((0, 0), st.store h zeroItimerspec) := by
  have hl2 : (st.store h zeroItimerspec).lookup h = some zeroItimerspec :=
    NativeState.lookup_store_self st h zeroItimerspec sp hl
  refine ⟨rfl, rfl, float_to_second_nsec_zero, ?_, hl2, ?_⟩
  · simp only [PosixTimer.disarm, PosixTimer.set, float_to_second_nsec_zero,
      PosixTimer.set_precise, ht, timer_settime, hl, error_handler]
    norm_num [zeroItimerspec]
  · simp only [PosixTimer.disarm, PosixTimer.set, float_to_second_nsec_zero,
      PosixTimer.set_precise, ht, timer_settime, hl2, error_handler,
      NativeState.store_store]
    norm_num [zeroItimerspec, second_nsec_to_float]

/-- C5 witness: disarming a timer armed with value (5,0) twice from a
one-timer state. -/
theorem disarm_equiv_set_zero_and_idempotent_witness :
    (PosixTimer.mk (some 1)).disarm ⟨[(1, ⟨⟨0, 0⟩, ⟨5, 0⟩⟩)], 1⟩ =
      (PosixTimer.mk (some 1)).set ⟨[(1, ⟨⟨0, 0⟩, ⟨5, 0⟩⟩)], 1⟩ 0 0 0 ∧
    (PosixTimer.mk (some 1)).disarm_precise ⟨[(1, ⟨⟨0, 0⟩, ⟨5, 0⟩⟩)], 1⟩ =
      (PosixTimer.mk (some 1)).set_precise ⟨[(1, ⟨⟨0, 0⟩, ⟨5, 0⟩⟩)], 1⟩ (0, 0) (0, 0) 0 ∧
    float_to_second_nsec 0 = (0, 0) ∧
    (PosixTimer.mk (some 1)).disarm ⟨[(1, ⟨⟨0, 0⟩, ⟨5, 0⟩⟩)], 1⟩ =
      .ok ((second_nsec_to_float (5, 0), second_nsec_to_float (0, 0)),
           NativeState.store ⟨[(1, ⟨⟨0, 0⟩, ⟨5, 0⟩⟩)], 1⟩ 1 zeroItimerspec) ∧
    (NativeState.store ⟨[(1, ⟨⟨0, 0⟩, ⟨5, 0⟩⟩)], 1⟩ 1 zeroItimerspec).lookup 1
      = some zeroItimerspec ∧
    (PosixTimer.mk (some 1)).disarm
        (NativeState.store ⟨[(1, ⟨⟨0, 0⟩, ⟨5, 0⟩⟩)], 1⟩ 1 zeroItimerspec) =
      .ok ((0, 0), NativeState.store ⟨[(1, ⟨⟨0, 0⟩, ⟨5, 0⟩⟩)], 1⟩ 1 zeroItimerspec) := by
  simpa using disarm_equiv_set_zero_and_idempotent ⟨some 1⟩
    ⟨[(1, ⟨⟨0, 0⟩, ⟨5, 0⟩⟩)], 1⟩ 1 ⟨⟨0, 0⟩, ⟨5, 0⟩⟩ rfl rfl

/-- C6: the floating-point convenience operations equal the codec composed
with the precise operations: `set` is `set_precise` on the
`_float_to_second_nsec` images of its float arguments with
`_second_nsec_to_float` applied componentwise to the returned pair, and
`get` is `_second_nsec_to_float` applied componentwise to `get_precise`;
errors pass through untouched. -/
theorem set_get_refine_precise_ops (t : PosixTimer) (st : NativeState)
    (value interval : ℚ) (flags : Int) :
    t.set st value interval flags =
      Except.map
        (fun r => ((second_nsec_to_float r.1.1, second_nsec_to_float r.1.2), r.2))
        (t.set_precise st (float_to_second_nsec value)
          (float_to_second_nsec interval) flags) ∧
    t.get st =
      Except.map (fun r => (second_nsec_to_float r.1, second_nsec_to_float r.2))
        (t.get_precise st) := by
  constructor
  · cases hs : t.set_precise st (float_to_second_nsec value)
      (float_to_second_nsec interval) flags with
    | error e => simp [PosixTimer.set, hs, Except.map]
    | ok r => simp [PosixTimer.set, hs, Except.map]
  · cases hg : t.get_precise st with
    | error e => simp [PosixTimer.get, hg, Except.map]
    | ok r => simp [PosixTimer.get, hg, Except.map]

/-- C7: `_second_nsec_to_float` computes `seconds + nanoseconds * 1e-9`, and
`_float_to_second_nsec` computes the pair of truncations
`(int(x), int((x - int(x)) * 1e9))`, where the Python builtin `int()` is
truncation toward zero: the sign of the input times the floor of its
absolute value. -/
theorem durationCodec_formulas (s ns : Int) (x : ℚ) :
    second_nsec_to_float (s, ns) = (s : ℚ) + (ns : ℚ) * (1 / 10 ^ 9) ∧
    float_to_second_nsec x = (pyInt x, pyInt ((x - (pyInt x : ℚ)) * 10 ^ 9)) ∧
    pyInt x = x.num.sign * ⌊|x|⌋ := by
  refine ⟨rfl, rfl, ?_⟩
  rcases lt_trichotomy x 0 with hx | hx | hx
  · have hnle : ¬ (0 ≤ x) := not_le.mpr hx
    have hnum : x.num < 0 := by
      by_contra hge
      exact hnle (Rat.num_nonneg.mp (le_of_not_lt hge))
    have hsign : x.num.sign = -1 := Int.sign_eq_neg_one_of_neg hnum
    rw [pyInt, if_neg hnle, hsign, abs_of_neg hx]
    have hceil : ⌈x⌉ = -⌊-x⌋ := by
      rw [Int.floor_neg]
      omega
    rw [hceil]
    ring
  · subst hx
    simp [pyInt]
  · have hle : 0 ≤ x := le_of_lt hx
    have hsign : x.num.sign = 1 := Int.sign_eq_one_of_pos (Rat.num_pos.mpr hx)
    rw [pyInt, if_pos hle, hsign, abs_of_pos hx]
    ring

end PosixTimerModel

namespace PosixTimerModel

/-- C9 counterexample: the claim quantifies over every float input, but for
the negative input `-1.5` the code returns `(-1, -500000000)`: the
nanosecond component is negative, violating the Duration invariant
`0 ≤ nanoseconds < 1e9`.  (Every number involved, `-1.5`, `-1`, `-0.5`,
`1e9` and `-5e8`, is exactly representable in binary64 and every arithmetic
step is exact, so this run agrees with the real Python float semantics.) -/
theorem float_to_second_nsec_negative_breaks_invariant :
    float_to_second_nsec (-(3 / 2)) = (-1, -500000000) ∧
    ¬ (0 ≤ (float_to_second_nsec (-(3 / 2))).2) := by
  have h : float_to_second_nsec (-(3 / 2)) = (-1, -500000000) := by
    norm_num [float_to_second_nsec, pyInt, Int.ceil_neg]
  refine ⟨h, ?_⟩
  rw [h]
  decide

/-- C9 (amended): for every nonnegative float input, `_float_to_second_nsec`
returns a nanosecond component satisfying the Duration invariant
`0 ≤ nanoseconds < 1e9`; for negative noninteger inputs the nanosecond
component is negative instead. -/
theorem float_to_second_nsec_nsec_range_nonneg (x : ℚ) (hx : 0 ≤ x) :
    0 ≤ (float_to_second_nsec x).2 ∧ (float_to_second_nsec x).2 < 10 ^ 9 := by
  have hfloor : pyInt x = ⌊x⌋ := if_pos hx
  have hfrac0 : 0 ≤ x - (⌊x⌋ : ℚ) := by
    have := Int.floor_le x
    linarith
  have hfrac1 : x - (⌊x⌋ : ℚ) < 1 := by
    have := Int.lt_floor_add_one x
    linarith
  have hy0 : 0 ≤ (x - (⌊x⌋ : ℚ)) * 10 ^ 9 := by positivity
  have hy1 : (x - (⌊x⌋ : ℚ)) * 10 ^ 9 < 10 ^ 9 := by nlinarith
  have hsnd : (float_to_second_nsec x).2 = ⌊(x - (⌊x⌋ : ℚ)) * 10 ^ 9⌋ := by
    simp only [float_to_second_nsec, hfloor]
    exact if_pos hy0
  rw [hsnd]
  constructor
  · exact Int.floor_nonneg.mpr hy0
  · rw [Int.floor_lt]
    push_cast
    exact hy1

/-- C9 witness: the amended range theorem evaluated at the nonnegative input
`2.5`, whose nanosecond component is `500000000`. -/
theorem float_to_second_nsec_nsec_range_nonneg_witness :
    0 ≤ (float_to_second_nsec (5 / 2)).2 ∧ (float_to_second_nsec (5 / 2)).2 < 10 ^ 9 :=
  float_to_second_nsec_nsec_range_nonneg (5 / 2) (by norm_num)

/-- C10: finalization is guarded and total over construction-reachable
states.  If the stored handle is absent (`getattr` default) or null, `__del__`
performs no native call, raises nothing, and leaves the native state
untouched; and for every object produced by `__init__` — whether creation
succeeded (live nonzero handle) or failed (null handle left in place) —
finalizing it in the post-construction native state raises nothing. -/
theorem del_guarded_and_total_after_init (st : NativeState) (t : PosixTimer)
    (hnull : t.timerid = none ∨ t.timerid = some 0) :
    t.del st = (false, none, st) ∧
    ∀ st0 : NativeState, ∀ clockid : Int,
      ((PosixTimer.init st0 clockid).1.del (PosixTimer.init st0 clockid).2.2).2.1
        = none := by
  constructor
  · rcases hnull with h | h <;> simp [PosixTimer.del, h]
  · intro st0 clockid
    by_cases hc : clockid ∈ validClocks
    · simp [PosixTimer.init, timer_create, hc, error_handler, PosixTimer.del,
        timer_delete, NativeState.lookup, lookupTimers, NativeState.remove]
    · simp [PosixTimer.init, timer_create, hc, error_handler_neg_one,
        PosixTimer.del]

/-- C10 witness: finalizing an object whose handle is the null pointer makes
no native call and returns normally, and post-construction finalization
never raises. -/
theorem del_guarded_and_total_after_init_witness :
    (PosixTimer.mk (some 0)).del ⟨[], 0⟩ = (false, none, ⟨[], 0⟩) ∧
    ∀ st0 : NativeState, ∀ clockid : Int,
      ((PosixTimer.init st0 clockid).1.del (PosixTimer.init st0 clockid).2.2).2.1
        = none :=
  del_guarded_and_total_after_init ⟨[], 0⟩ ⟨some 0⟩ (Or.inr rfl)

end PosixTimerModel
